import Mathlib

/-!
# Verification of the AtmosTrack air-quality ETL pipeline

Shallow embedding, in Lean 4, of the transform-and-load pipeline of the
`etl-pipeline` repository (`src/urban/transform.py`, `src/urban/load.py`,
`src/urban/etl_analysis.py`), together with theorems settling the claims
of the specification.

Modelling conventions:

* Python/pandas floating-point readings are modelled as `Option ℚ`:
  `none` stands for an absent value (`None` / `NaN`), `some q` for a
  finite numeric value.  NaN-propagating float arithmetic is modelled by
  `Option`-propagating arithmetic (`nmul`, `nadd`), and a comparison
  against NaN is `false`, exactly as in IEEE/Python (`optGt`).
* `pd.Timestamp` is modelled by the `Timestamp` structure;
  `pd.to_datetime` on a string is modelled by `parseTimestamp`, which
  accepts the ISO-8601 shapes flowing through this pipeline
  (`YYYY-MM-DDTHH:MM`, and `YYYY-MM-DD{T| }HH:MM:SS`) and fails
  (raises, i.e. `none`) on anything else.
* An uncaught Python exception in `transform.py` is modelled by
  `Except.error`: it aborts the whole transform run.
-/

namespace Etl

/-- A calendar timestamp at second granularity, modelling `pd.Timestamp`
as it occurs in this pipeline. -/
structure Timestamp where
  year : Nat
  month : Nat
  day : Nat
  hour : Nat
  minute : Nat
  second : Nat
deriving DecidableEq, Repr

/-- Field ranges enforced by `pd.to_datetime` (4-digit years suffice for
the data flowing through this pipeline). -/
def Timestamp.valid (t : Timestamp) : Bool :=
  decide (t.year ≤ 9999 ∧ 1 ≤ t.month ∧ t.month ≤ 12 ∧ 1 ≤ t.day ∧ t.day ≤ 31 ∧
    t.hour ≤ 23 ∧ t.minute ≤ 59 ∧ t.second ≤ 59)

/-- The decimal digit character for `d` (callers pass `d < 10`). -/
def digitChar (d : Nat) : Char := Char.ofNat (48 + d)

/-- Numeric value of a decimal digit character, `none` on a non-digit. -/
def digitVal (c : Char) : Option Nat :=
  if c.isDigit then some (c.toNat - 48) else none

/-- Two-digit zero-padded decimal rendering, as `strftime` `%m`/`%d`/`%H`/`%M`/`%S`. -/
def pad2 (n : Nat) : List Char := [digitChar (n / 10 % 10), digitChar (n % 10)]

/-- Four-digit zero-padded decimal rendering, as `strftime` `%Y` on this data. -/
def pad4 (n : Nat) : List Char :=
  [digitChar (n / 1000 % 10), digitChar (n / 100 % 10), digitChar (n / 10 % 10), digitChar (n % 10)]

/-- Parse two decimal digit characters. -/
def parse2 (a b : Char) : Option Nat :=
  match digitVal a, digitVal b with
  | some x, some y => some (10 * x + y)
  | _, _ => none

/-- Parse four decimal digit characters. -/
def parse4 (a b c d : Char) : Option Nat :=
  match digitVal a, digitVal b, digitVal c, digitVal d with
  | some w, some x, some y, some z => some (1000 * w + 100 * x + 10 * y + z)
  | _, _, _, _ => none

/-- Range-check and build a `Timestamp`, modelling `pd.to_datetime`
rejecting out-of-range components. -/
def mkTimestamp (y mo d h mi s : Nat) : Option Timestamp :=
  if 1 ≤ mo ∧ mo ≤ 12 ∧ 1 ≤ d ∧ d ≤ 31 ∧ h ≤ 23 ∧ mi ≤ 59 ∧ s ≤ 59 ∧ y ≤ 9999 then
    some ⟨y, mo, d, h, mi, s⟩
  else none

/-- Model of `pd.to_datetime` on one string: accepts
`YYYY-MM-DDTHH:MM` and `YYYY-MM-DD{T| }HH:MM:SS`, returns `none`
(the Python call raises) on every other string. -/
def parseTimestamp (str : String) : Option Timestamp :=
  match str.toList with
  | [y1, y2, y3, y4, '-', m1, m2, '-', d1, d2, 'T', h1, h2, ':', n1, n2] =>
    match parse4 y1 y2 y3 y4, parse2 m1 m2, parse2 d1 d2, parse2 h1 h2, parse2 n1 n2 with
    | some y, some mo, some d, some h, some mi => mkTimestamp y mo d h mi 0
    | _, _, _, _, _ => none
  | [y1, y2, y3, y4, '-', m1, m2, '-', d1, d2, sep, h1, h2, ':', n1, n2, ':', s1, s2] =>
    if sep = 'T' ∨ sep = ' ' then
      match parse4 y1 y2 y3 y4, parse2 m1 m2, parse2 d1 d2, parse2 h1 h2, parse2 n1 n2,
          parse2 s1 s2 with
      | some y, some mo, some d, some h, some mi, some s => mkTimestamp y mo d h mi s
      | _, _, _, _, _, _ => none
    else none
  | _ => none

/-- `strftime("%Y-%m-%dT%H:%M:%S")` from `src/urban/load.py` line 41. -/
def formatTimestampIso (t : Timestamp) : String :=
  String.mk (pad4 t.year ++ '-' :: pad2 t.month ++ '-' :: pad2 t.day ++
    'T' :: pad2 t.hour ++ ':' :: pad2 t.minute ++ ':' :: pad2 t.second)

/-- `str(pd.Timestamp)` as written by `DataFrame.to_csv` for the staged
CSV (space-separated date and time). -/
def formatTimestampCsv (t : Timestamp) : String :=
  String.mk (pad4 t.year ++ '-' :: pad2 t.month ++ '-' :: pad2 t.day ++
    ' ' :: pad2 t.hour ++ ':' :: pad2 t.minute ++ ':' :: pad2 t.second)

/-! ## NaN-aware arithmetic and comparison

`Option ℚ` arithmetic mirrors Python float arithmetic with NaN:
an absent operand makes the result absent, and `NaN > c` is `False`. -/

/-- Multiplication by a constant; NaN (`none`) propagates. -/
def nmul (x : Option ℚ) (c : ℚ) : Option ℚ :=
  match x with
  | some v => some (v * c)
  | none => none

/-- Addition; NaN (`none`) propagates. -/
def nadd (x y : Option ℚ) : Option ℚ :=
  match x, y with
  | some a, some b => some (a + b)
  | _, _ => none

/-- `x > c` on a possibly-NaN float: any comparison against NaN is `false`. -/
def optGt (x : Option ℚ) (c : ℚ) : Bool :=
  match x with
  | some v => decide (c < v)
  | none => false

/-! ## Feature Deriver (`src/urban/transform.py` lines 36-66) -/

/-- `compute_aqi` (`transform.py` lines 36-48): AQI category from PM2.5;
`None`/NaN input yields `None`. -/
def compute_aqi (pm2_5 : Option ℚ) : Option String :=
  match pm2_5 with
  | none => none
  | some v =>
    if v ≤ 50 then some "Good"
    else if v ≤ 100 then some "Moderate"
    else if v ≤ 200 then some "Unhealthy"
    else if v ≤ 300 then some "Very Unhealthy"
    else some "Hazardous"

/-- The per-row pollutant readings of one flattened row.  Every key of
`POLLUTANTS` is assigned in the row-building loop (`transform.py`
lines 93-95), so each field is present, possibly as `None`/NaN. -/
structure PollutantReadings where
  pm10 : Option ℚ
  pm2_5 : Option ℚ
  carbon_monoxide : Option ℚ
  nitrogen_dioxide : Option ℚ
  sulphur_dioxide : Option ℚ
  ozone : Option ℚ
  uv_index : Option ℚ
deriving DecidableEq, Repr

/-- `compute_severity` (`transform.py` lines 50-58).  In the Python
source, `row.get(pol, 0)` is called on a pandas row whose index always
contains every pollutant key, so the default `0` is never used: a
missing reading is the stored `NaN` and propagates through `*` and `+`.
(When a pollutant column holds Python `None` instead of `NaN` — which
happens only when that pollutant is absent from every snapshot — the
multiplication raises; either way the sum is never the claimed 0-filled
value, and absence is modelled uniformly as propagating `none`.) -/
def compute_severity (row : PollutantReadings) : Option ℚ :=
  nadd (nadd (nadd (nadd (nadd
    (nmul row.pm2_5 5)
    (nmul row.pm10 3))
    (nmul row.nitrogen_dioxide 4))
    (nmul row.sulphur_dioxide 4))
    (nmul row.carbon_monoxide 2))
    (nmul row.ozone 3)

/-- `classify_risk` (`transform.py` lines 60-66), on a possibly-NaN
severity: `severity > 400` and `severity > 200` are both `False` at NaN. -/
def classify_risk (severity : Option ℚ) : String :=
  if optGt severity 400 then "High Risk"
  else if optGt severity 200 then "Moderate Risk"
  else "Low Risk"

/-! ## Record Flattener (`src/urban/transform.py` lines 71-108)

A raw JSON document, already decoded (a file with invalid JSON is
skipped before reaching the row-building loop and so never appears in
the input list).  The `hourly` object maps a pollutant name to its
parallel reading array; a JSON `null` entry — which
`pd.to_numeric(·, errors="coerce")` turns into `NaN` — is `none`. -/
structure RawSnapshot where
  city : String
  times : List String
  hourly : List (String × List (Option ℚ))
deriving Repr

/-- `hourly.get(pol, [])` (`transform.py` line 94): the reading array
for a pollutant, the empty list when the key is missing. -/
def hget (hourly : List (String × List (Option ℚ))) (pol : String) : List (Option ℚ) :=
  match hourly.lookup pol with
  | some vs => vs
  | none => []

/-- `values[i] if i < len(values) else None` (`transform.py` line 95):
the reading at index `i`, `none` past the end of a short array. -/
def readAt (values : List (Option ℚ)) (i : Nat) : Option ℚ :=
  values.getD i none

/-- The pollutant readings of the row built at time-axis index `i`
(`transform.py` lines 93-95), one field per entry of `POLLUTANTS`. -/
def mkReadings (hourly : List (String × List (Option ℚ))) (i : Nat) : PollutantReadings where
  pm10 := readAt (hget hourly "pm10") i
  pm2_5 := readAt (hget hourly "pm2_5") i
  carbon_monoxide := readAt (hget hourly "carbon_monoxide") i
  nitrogen_dioxide := readAt (hget hourly "nitrogen_dioxide") i
  sulphur_dioxide := readAt (hget hourly "sulphur_dioxide") i
  ozone := readAt (hget hourly "ozone") i
  uv_index := readAt (hget hourly "uv_index") i

/-- One element of `all_records`: the raw flattened row before the
all-null filter and the derived features. -/
structure RawRow where
  city : String
  time : Timestamp
  readings : PollutantReadings
deriving Repr

/-- The row-building loop body over the remaining time axis starting at
index `i` (`transform.py` lines 91-96).  `pd.to_datetime(timestamp)` is
called with the default `errors="raise"`, so an unparseable timestamp
string raises, aborting the whole transform run: this is `Except.error`
carrying the offending string. -/
def buildRowsFrom (city : String) (hourly : List (String × List (Option ℚ))) :
    List String → Nat → Except String (List RawRow)
  | [], _ => .ok []
  | t :: ts, i =>
    match parseTimestamp t with
    | none => .error t
    | some tm =>
      match buildRowsFrom city hourly ts (i + 1) with
      | .ok rest => .ok ({ city := city, time := tm, readings := mkReadings hourly i } :: rest)
      | .error e => .error e

/-- All rows built from one snapshot (the inner loop of
`transform.py` lines 91-96). -/
def buildRows (s : RawSnapshot) : Except String (List RawRow) :=
  buildRowsFrom s.city s.hourly s.times 0

/-- `all_records` accumulated over every snapshot (`transform.py`
lines 73-96); a raised timestamp-parse error anywhere aborts the run. -/
def flattenAll : List RawSnapshot → Except String (List RawRow)
  | [] => .ok []
  | s :: ss =>
    match buildRows s with
    | .error e => .error e
    | .ok rows =>
      match flattenAll ss with
      | .ok rest => .ok (rows ++ rest)
      | .error e => .error e

/-- True when every one of the seven pollutant fields is absent:
the rows removed by `df.dropna(subset=POLLUTANTS, how="all")`
(`transform.py` line 102). -/
def allPollutantsNull (r : PollutantReadings) : Bool :=
  r.pm10.isNone && r.pm2_5.isNone && r.carbon_monoxide.isNone &&
    r.nitrogen_dioxide.isNone && r.sulphur_dioxide.isNone &&
    r.ozone.isNone && r.uv_index.isNone

/-- One row of the staged table, with the derived features attached
(`transform.py` lines 104-108).  Field names follow the staged CSV
columns (`AQI`, `severity`, `risk`, `hour`). -/
structure CanonicalRow where
  city : String
  time : Timestamp
  readings : PollutantReadings
  AQI : Option String
  severity : Option ℚ
  risk : String
  hour : Nat
deriving Repr

/-- Attach the derived features to one surviving raw row
(`transform.py` lines 104-108): AQI from PM2.5, the severity score,
the risk flag from severity, and `time.dt.hour`. -/
def deriveRow (r : RawRow) : CanonicalRow where
  city := r.city
  time := r.time
  readings := r.readings
  AQI := compute_aqi r.readings.pm2_5
  severity := compute_severity r.readings
  risk := classify_risk (compute_severity r.readings)
  hour := r.time.hour

/-- The whole transform stage (`transform.py` lines 71-108): flatten
every snapshot, drop the rows whose pollutant readings are all null,
attach derived features. -/
def transform (snaps : List RawSnapshot) : Except String (List CanonicalRow) :=
  match flattenAll snaps with
  | .error e => .error e
  | .ok raws => .ok (((raws.filter (fun r => !allPollutantsNull r.readings)).map deriveRow))

/-! ## Staged CSV round trip
(`transform.py` line 111 `df.to_csv`, `load.py` lines 38-41
`pd.read_csv` / `pd.to_datetime`)

A CSV cell is modelled at the value level: empty (how `to_csv` writes
`NaN`/`None`, and what `read_csv` reads back as `NaN`), a numeral
(Python float repr round-trips exactly through decimal text), or text. -/

inductive Cell
  | empty
  | num (q : ℚ)
  | text (s : String)
deriving DecidableEq, Repr

/-- One line of the staged CSV, in column order
`city, time, pm10, pm2_5, carbon_monoxide, nitrogen_dioxide,
sulphur_dioxide, ozone, uv_index, AQI, severity, risk, hour`. -/
structure CsvRow where
  city : Cell
  time : Cell
  pm10 : Cell
  pm2_5 : Cell
  carbon_monoxide : Cell
  nitrogen_dioxide : Cell
  sulphur_dioxide : Cell
  ozone : Cell
  uv_index : Cell
  AQI : Cell
  severity : Cell
  risk : Cell
  hour : Cell
deriving Repr

/-- How `to_csv` writes one nullable float: `NaN` becomes an empty cell. -/
def cellOfOpt : Option ℚ → Cell
  | none => .empty
  | some q => .num q

/-- How `to_csv` writes one nullable string column. -/
def cellOfOptStr : Option String → Cell
  | none => .empty
  | some s => .text s

/-- `df.to_csv` (`transform.py` line 111) on one canonical row. -/
def toCsvRow (r : CanonicalRow) : CsvRow where
  city := .text r.city
  time := .text (formatTimestampCsv r.time)
  pm10 := cellOfOpt r.readings.pm10
  pm2_5 := cellOfOpt r.readings.pm2_5
  carbon_monoxide := cellOfOpt r.readings.carbon_monoxide
  nitrogen_dioxide := cellOfOpt r.readings.nitrogen_dioxide
  sulphur_dioxide := cellOfOpt r.readings.sulphur_dioxide
  ozone := cellOfOpt r.readings.ozone
  uv_index := cellOfOpt r.readings.uv_index
  AQI := cellOfOptStr r.AQI
  severity := cellOfOpt r.severity
  risk := .text r.risk
  hour := .num (r.hour : ℚ)

/-- How `read_csv` reads one nullable float column: an empty cell is `NaN`. -/
def optOfCell : Cell → Option ℚ
  | .empty => none
  | .num q => some q
  | .text _ => none

/-- How `read_csv` reads one nullable string column. -/
def optStrOfCell : Cell → Option String
  | .empty => none
  | .num _ => none
  | .text s => some s

/-- Read back a non-negative integer column (`hour`). -/
def natOfCell : Cell → Option Nat
  | .num q => if q.den = 1 ∧ 0 ≤ q.num then some q.num.toNat else none
  | _ => none

/-- `pd.read_csv` on one staged line followed by
`pd.to_datetime(df["time"])` (`load.py` lines 38-41); the `to_datetime`
call raises (`none`) when the time text does not parse. -/
def readCsvRow (c : CsvRow) : Option CanonicalRow :=
  match c.city, c.risk, c.time, natOfCell c.hour with
  | .text city, .text risk, .text ts, some hour =>
    match parseTimestamp ts with
    | none => none
    | some t =>
      some { city := city
             time := t
             readings :=
               { pm10 := optOfCell c.pm10
                 pm2_5 := optOfCell c.pm2_5
                 carbon_monoxide := optOfCell c.carbon_monoxide
                 nitrogen_dioxide := optOfCell c.nitrogen_dioxide
                 sulphur_dioxide := optOfCell c.sulphur_dioxide
                 ozone := optOfCell c.ozone
                 uv_index := optOfCell c.uv_index }
             AQI := optStrOfCell c.AQI
             severity := optOfCell c.severity
             risk := risk
             hour := hour }
  | _, _, _, _ => none

/-! ## Batch Committer record serialization (`src/urban/load.py` lines 41-54) -/

/-- One value of a record as handed to the remote-store client:
an explicit `null`, a finite number, a text value, or the `NaN`
sentinel (never actually produced — that is claim C5). -/
inductive TransValue
  | null
  | num (q : ℚ)
  | text (s : String)
  | nan
deriving DecidableEq, Repr

/-- `df.where(pd.notnull(df), None)` followed by
`to_dict(orient="records")` on one nullable float field
(`load.py` lines 52-54): `NaN` is replaced by `None`. -/
def transField : Option ℚ → TransValue
  | none => .null
  | some q => .num q

/-- The same on one nullable string field. -/
def transStrField : Option String → TransValue
  | none => .null
  | some s => .text s

/-- One transmitted record, after the column rename
`AQI → aqi_category`, `severity → severity_score`, `risk → risk_flag`
(`load.py` lines 44-49). -/
structure TransRecord where
  city : TransValue
  time : TransValue
  pm10 : TransValue
  pm2_5 : TransValue
  carbon_monoxide : TransValue
  nitrogen_dioxide : TransValue
  sulphur_dioxide : TransValue
  ozone : TransValue
  uv_index : TransValue
  aqi_category : TransValue
  severity_score : TransValue
  risk_flag : TransValue
  hour : TransValue
deriving Repr

/-- Serialization of one row for transmission (`load.py` lines 41-54):
the timestamp is rendered by `strftime("%Y-%m-%dT%H:%M:%S")`, every
`NaN` field becomes an explicit `None`. -/
def serializeRecord (r : CanonicalRow) : TransRecord where
  city := .text r.city
  time := .text (formatTimestampIso r.time)
  pm10 := transField r.readings.pm10
  pm2_5 := transField r.readings.pm2_5
  carbon_monoxide := transField r.readings.carbon_monoxide
  nitrogen_dioxide := transField r.readings.nitrogen_dioxide
  sulphur_dioxide := transField r.readings.sulphur_dioxide
  ozone := transField r.readings.ozone
  uv_index := transField r.readings.uv_index
  aqi_category := transStrField r.AQI
  severity_score := transField r.severity
  risk_flag := .text r.risk
  hour := .num (r.hour : ℚ)

/-- Checker for the spec's words "serialized to a canonical ISO-8601
string": exactly the shape `YYYY-MM-DDTHH:MM:SS` with decimal digits.
Stated from the spec, to be compared against the source-derived
`formatTimestampIso`. -/
def spec_isIso8601 (s : String) : Bool :=
  match s.toList with
  | [y1, y2, y3, y4, '-', m1, m2, '-', d1, d2, 'T', h1, h2, ':', n1, n2, ':', s1, s2] =>
    y1.isDigit && y2.isDigit && y3.isDigit && y4.isDigit && m1.isDigit && m2.isDigit &&
      d1.isDigit && d2.isDigit && h1.isDigit && h2.isDigit && n1.isDigit && n2.isDigit &&
      s1.isDigit && s2.isDigit
  | _ => false

/-! ## Batch Committer insert loop (`src/urban/load.py` lines 60-76)

The remote `insert` call is the environment: it is modelled by an
oracle `ok b a : Bool` telling whether the attempt number `a`
(`a = 0, 1, …, maxRetries`, in order) for the 1-based batch number `b`
succeeds.  The loop body tries attempts in order and stops at the
first success. -/

/-- `records[i:i+BATCH_SIZE]` slicing (`load.py` lines 60-61):
consecutive chunks, the last possibly shorter.  `batchSize = 0` would
make the Python `range` raise, so no batches are modelled for it. -/
def chunkList {α : Type} (batchSize : Nat) : List α → List (List α)
  | [] => []
  | x :: xs =>
    if batchSize = 0 then []
    else (x :: xs).take batchSize :: chunkList batchSize ((x :: xs).drop batchSize)
termination_by l => l.length
decreasing_by
  simp only [List.drop, List.length_drop, List.length_cons]
  omega

/-- The retry loop for one batch (`load.py` lines 62-72): `attempt`
starts at 0 and the body runs while `attempt ≤ MAX_RETRIES`, so there
are `maxRetries + 1` attempts; the batch succeeds iff some attempt
succeeds (the backoff sleep does not affect the result). -/
def batchSucceeds (maxRetries : Nat) (ok : Nat → Bool) : Bool :=
  (List.range (maxRetries + 1)).any ok

/-- The whole batch-insert loop (`load.py` lines 60-76): returns the
final `total_inserted` and the 1-based numbers of the batches that
exhausted every attempt (in loop order), as reported by the
`else` branch of the `while` (`load.py` line 74). -/
def commitAll {α : Type} (records : List α) (batchSize maxRetries : Nat)
    (ok : Nat → Nat → Bool) : Nat × List Nat :=
  (chunkList batchSize records).enum.foldl
    (fun acc bi =>
      if batchSucceeds maxRetries (ok (bi.1 + 1)) then
        (acc.1 + bi.2.length, acc.2)
      else
        (acc.1, acc.2 ++ [bi.1 + 1]))
    (0, [])

/-! ## Aggregator risk distribution (`src/urban/etl_analysis.py` lines 64-65) -/

/-- Floor of a rational, computed on the reduced numerator and
denominator so that it evaluates inside the kernel. -/
def ratFloor (q : ℚ) : ℤ := Int.fdiv q.num q.den

/-- Round-half-to-even to an integer, as numpy rounding used by
`Series.round`. -/
def roundHalfEven (q : ℚ) : ℤ :=
  let f := ratFloor q
  let r := q - (f : ℚ)
  if r < 1 / 2 then f
  else if 1 / 2 < r then f + 1
  else if f % 2 = 0 then f else f + 1

/-- `.round(2)`: round to 2 decimal places. -/
def round2 (q : ℚ) : ℚ := (roundHalfEven (q * 100) : ℚ) / 100

/-- `df["risk_flag"].value_counts(dropna=True)` at one value `v`:
the number of rows whose `risk_flag` is `v`. -/
def countFlag (flags : List (Option String)) (v : String) : Nat :=
  (flags.filter (fun f => f = some v)).length

/-- `risk_counts.sum()`: the number of rows with a non-null `risk_flag`
(`value_counts(dropna=True)` drops the nulls before counting). -/
def nonNullFlagCount (flags : List (Option String)) : Nat :=
  (flags.filter (fun f => f.isSome)).length

/-- `risk_pct = (risk_counts / risk_counts.sum() * 100).round(2)`
(`etl_analysis.py` line 65) at one risk-flag value. -/
def risk_pct (flags : List (Option String)) (v : String) : ℚ :=
  round2 ((countFlag flags v : ℚ) / (nonNullFlagCount flags : ℚ) * 100)

/-! ## Helper lemmas -/

theorem nadd_none_left (y : Option ℚ) : nadd none y = none := rfl

theorem nadd_none_right (x : Option ℚ) : nadd x none = none := by
  cases x <;> rfl

/-- The severity of a row with every weighted pollutant present is the
weighted linear sum of its readings. -/
theorem compute_severity_total (row : PollutantReadings) (p2 p1 no so co oz : ℚ)
    (h2 : row.pm2_5 = some p2) (h1 : row.pm10 = some p1)
    (hno : row.nitrogen_dioxide = some no) (hso : row.sulphur_dioxide = some so)
    (hco : row.carbon_monoxide = some co) (hoz : row.ozone = some oz) :
    compute_severity row = some (p2 * 5 + p1 * 3 + no * 4 + so * 4 + co * 2 + oz * 3) := by
  simp [compute_severity, nmul, nadd, h2, h1, hno, hso, hco, hoz]

/-- The severity of a row missing any one of the six weighted pollutant
readings is NaN: the absent reading propagates through the sum. -/
theorem compute_severity_none_of_missing (row : PollutantReadings)
    (h : row.pm2_5 = none ∨ row.pm10 = none ∨ row.nitrogen_dioxide = none ∨
      row.sulphur_dioxide = none ∨ row.carbon_monoxide = none ∨ row.ozone = none) :
    compute_severity row = none := by
  rcases h with h | h | h | h | h | h <;>
    simp [compute_severity, nmul, h, nadd_none_left, nadd_none_right]

/-! ## Claims -/

/-- C1, counterexample: a row with `pm2_5 = 10` and every other
pollutant reading missing does not get the claimed finite severity
`5·10 = 50`; `compute_severity` yields NaN (`none`), because the missing
readings propagate through the weighted sum (the `row.get(pol, 0)`
default never fires: every pollutant key is present in the row). -/
theorem C1_counterexample :
    compute_severity ⟨none, some 10, none, none, none, none, none⟩ = none ∧
    compute_severity ⟨none, some 10, none, none, none, none, none⟩ ≠ some 50 := by
  have hnone : compute_severity ⟨none, some 10, none, none, none, none, none⟩ = none := rfl
  refine ⟨hnone, ?_⟩
  rw [hnone]
  exact fun h => Option.noConfusion h

/-- C1, amended: `compute_severity` returns the weighted linear sum
`5·pm2_5 + 3·pm10 + 4·NO2 + 4·SO2 + 2·CO + 3·ozone` when all six
weighted pollutant readings are present; when any of the six is missing
the result is NaN (`none`) — the missing reading propagates instead of
contributing 0. -/
theorem C1_severity_weighted_sum (row : PollutantReadings) :
    (∀ p2 p1 no so co oz : ℚ,
      row.pm2_5 = some p2 → row.pm10 = some p1 → row.nitrogen_dioxide = some no →
      row.sulphur_dioxide = some so → row.carbon_monoxide = some co → row.ozone = some oz →
      compute_severity row = some (p2 * 5 + p1 * 3 + no * 4 + so * 4 + co * 2 + oz * 3)) ∧
    ((row.pm2_5 = none ∨ row.pm10 = none ∨ row.nitrogen_dioxide = none ∨
      row.sulphur_dioxide = none ∨ row.carbon_monoxide = none ∨ row.ozone = none) →
      compute_severity row = none) := by
  constructor
  · intro p2 p1 no so co oz h2 h1 hno hso hco hoz
    exact compute_severity_total row p2 p1 no so co oz h2 h1 hno hso hco hoz
  · exact compute_severity_none_of_missing row

/-- C1, witness for the amended theorem at concrete rows: a full row
gets its weighted sum, a row missing `pm10` gets NaN. -/
theorem C1_severity_weighted_sum_witness :
    compute_severity ⟨some 1, some 2, some 3, some 4, some 5, some 6, none⟩ = some 73 ∧
    compute_severity ⟨none, some 10, none, none, none, none, none⟩ = none := by
  constructor
  · have h := (C1_severity_weighted_sum ⟨some 1, some 2, some 3, some 4, some 5, some 6, none⟩).1
      2 1 4 5 3 6 rfl rfl rfl rfl rfl rfl
    rw [h]
    norm_num
  · exact (C1_severity_weighted_sum ⟨none, some 10, none, none, none, none, none⟩).2
      (Or.inr (Or.inl rfl))

/-- C4: `classify_risk` maps severity strictly above 400 to High Risk,
severity strictly above 200 and at most 400 to Moderate Risk, and
everything else to Low Risk; in particular 400 → Moderate, 400.01 →
High, 200 → Low. -/
theorem C4_classify_risk_thresholds (s : ℚ) :
    (400 < s → classify_risk (some s) = "High Risk") ∧
    (200 < s → s ≤ 400 → classify_risk (some s) = "Moderate Risk") ∧
    (s ≤ 200 → classify_risk (some s) = "Low Risk") ∧
    classify_risk (some 400) = "Moderate Risk" ∧
    classify_risk (some (40001 / 100)) = "High Risk" ∧
    classify_risk (some 200) = "Low Risk" := by
  refine ⟨fun h => ?_, fun hlo hhi => ?_, fun h => ?_, ?_, ?_, ?_⟩
  · simp [classify_risk, optGt, h]
  · have h4 : ¬ (400 : ℚ) < s := not_lt.mpr hhi
    simp [classify_risk, optGt, h4, hlo]
  · have h4 : ¬ (400 : ℚ) < s := not_lt.mpr (le_trans h (by norm_num))
    have h2 : ¬ (200 : ℚ) < s := not_lt.mpr h
    simp [classify_risk, optGt, h4, h2]
  · norm_num [classify_risk, optGt]
  · norm_num [classify_risk, optGt]
  · norm_num [classify_risk, optGt]

/-- C4, witness: the three threshold clauses at 401, 250 and 100. -/
theorem C4_classify_risk_thresholds_witness :
    classify_risk (some 401) = "High Risk" ∧
    classify_risk (some 250) = "Moderate Risk" ∧
    classify_risk (some 100) = "Low Risk" :=
  ⟨(C4_classify_risk_thresholds 401).1 (by norm_num),
   (C4_classify_risk_thresholds 250).2.1 (by norm_num) (by norm_num),
   (C4_classify_risk_thresholds 100).2.2.1 (by norm_num)⟩

/-- C10: classifying a NaN severity yields Low Risk (both strict
comparisons are false at NaN), so a row whose severity is NaN — in
particular any row with a missing weighted pollutant reading — is
assigned the risk flag Low Risk rather than a null or an error. -/
theorem C10_nan_severity_classifies_low (row : PollutantReadings) :
    classify_risk none = "Low Risk" ∧
    optGt none 400 = false ∧ optGt none 200 = false ∧
    ((row.pm2_5 = none ∨ row.pm10 = none ∨ row.nitrogen_dioxide = none ∨
      row.sulphur_dioxide = none ∨ row.carbon_monoxide = none ∨ row.ozone = none) →
      classify_risk (compute_severity row) = "Low Risk") := by
  refine ⟨rfl, rfl, rfl, fun h => ?_⟩
  rw [compute_severity_none_of_missing row h]
  rfl

/-- C10, witness: a row with `pm2_5 = 300` (weighted contribution alone
would be 1500 > 400) but a missing `pm10` is classified Low Risk. -/
theorem C10_nan_severity_classifies_low_witness :
    classify_risk (compute_severity ⟨none, some 300, none, none, none, none, none⟩) =
      "Low Risk" :=
  (C10_nan_severity_classifies_low ⟨none, some 300, none, none, none, none, none⟩).2.2.2
    (Or.inr (Or.inl rfl))

/-- The row-building loop hits `Except.error` whenever some remaining
timestamp string fails to parse: `pd.to_datetime` raises and the
exception is not caught. -/
theorem buildRowsFrom_error (city : String) (hourly : List (String × List (Option ℚ))) :
    ∀ (ts : List String) (j : Nat), (∃ t ∈ ts, parseTimestamp t = none) →
      ∃ e, buildRowsFrom city hourly ts j = .error e := by
  intro ts
  induction ts with
  | nil =>
    intro j h
    obtain ⟨t, hmem, _⟩ := h
    exact absurd hmem (List.not_mem_nil t)
  | cons t ts ih =>
    intro j h
    cases hparse : parseTimestamp t with
    | none => exact ⟨t, by simp [buildRowsFrom, hparse]⟩
    | some tm =>
      obtain ⟨u, hmem, hu⟩ := h
      rcases List.mem_cons.mp hmem with heq | hmem2
      · rw [← heq] at hparse
        rw [hparse] at hu
        exact absurd hu (Option.some_ne_none tm)
      · obtain ⟨e, he⟩ := ih (j + 1) ⟨u, hmem2, hu⟩
        exact ⟨e, by simp [buildRowsFrom, hparse, he]⟩

/-- `flattenAll` hits `Except.error` whenever some snapshot's time axis
contains a timestamp string that fails to parse. -/
theorem flattenAll_error (snaps : List RawSnapshot)
    (h : ∃ s ∈ snaps, ∃ t ∈ s.times, parseTimestamp t = none) :
    ∃ e, flattenAll snaps = .error e := by
  induction snaps with
  | nil =>
    obtain ⟨s, hmem, _⟩ := h
    exact absurd hmem (List.not_mem_nil s)
  | cons s ss ih =>
    obtain ⟨u, hmem, hu⟩ := h
    rcases List.mem_cons.mp hmem with heq | hmem2
    · obtain ⟨e, he⟩ := buildRowsFrom_error s.city s.hourly s.times 0 (heq ▸ hu)
      exact ⟨e, by simp [flattenAll, buildRows, he]⟩
    · cases hb : buildRows s with
      | error e => exact ⟨e, by simp [flattenAll, hb]⟩
      | ok rows =>
        obtain ⟨e, he⟩ := ih ⟨u, hmem2, hu⟩
        exact ⟨e, by simp [flattenAll, hb, he]⟩

/-- C2, counterexample: a snapshot whose time axis is
`["2024-01-01T00:00", "oops", "2024-01-01T02:00"]` with a full `pm10`
array produces no rows at all — `transform` aborts with the raised
parse error at `"oops"` — whereas the claim promises the two
parseable rows are still produced. -/
theorem C2_counterexample :
    transform [{ city := "Test City",
                 times := ["2024-01-01T00:00", "oops", "2024-01-01T02:00"],
                 hourly := [("pm10", [some 1, some 2, some 3])] }] =
      .error "oops" := by
  rfl

/-- C2, amended: an unparseable timestamp string anywhere in the input
aborts the entire transform run (`pd.to_datetime` is called with the
default `errors="raise"` and nothing catches the exception): no rows at
all are produced, instead of the offending row being dropped. -/
theorem C2_unparseable_time_aborts (snaps : List RawSnapshot)
    (h : ∃ s ∈ snaps, ∃ t ∈ s.times, parseTimestamp t = none) :
    ∃ e, transform snaps = .error e := by
  obtain ⟨e, he⟩ := flattenAll_error snaps h
  exact ⟨e, by simp [transform, he]⟩

/-- C2, witness for the amended theorem: the run over the concrete
mixed-timestamp snapshot aborts with an error. -/
theorem C2_unparseable_time_aborts_witness :
    ∃ e, transform [{ city := "Test City",
                      times := ["2024-01-01T00:00", "oops", "2024-01-01T02:00"],
                      hourly := [("pm10", [some 1, some 2, some 3])] }] =
      .error e :=
  C2_unparseable_time_aborts _
    ⟨_, List.mem_singleton.mpr rfl, "oops", by simp, by rfl⟩

/-- Reading past the end of a (possibly short) pollutant array yields null. -/
theorem readAt_past_end (values : List (Option ℚ)) (i : Nat) (h : values.length ≤ i) :
    readAt values i = none := by
  simp [readAt, List.getD, List.getElem?_eq_none, h]

/-- A pollutant key missing from the `hourly` object yields the empty
array, hence null at every index. -/
theorem hget_missing (hourly : List (String × List (Option ℚ))) (pol : String)
    (h : hourly.lookup pol = none) : hget hourly pol = [] := by
  simp [hget, h]

/-- The row-building loop on a time axis whose every timestamp parses:
one row per time-axis entry, the row at relative index `i` carrying the
parsed timestamp, the source city and the readings at absolute index
`j + i`. -/
theorem buildRowsFrom_ok (city : String) (hourly : List (String × List (Option ℚ))) :
    ∀ (ts : List String) (j : Nat), (∀ t ∈ ts, (parseTimestamp t).isSome) →
      ∃ rows, buildRowsFrom city hourly ts j = .ok rows ∧
        rows.length = ts.length ∧
        ∀ i (hi : i < rows.length),
          parseTimestamp (ts.getD i "") = some ((rows.get ⟨i, hi⟩).time) ∧
          (rows.get ⟨i, hi⟩).readings = mkReadings hourly (j + i) ∧
          (rows.get ⟨i, hi⟩).city = city := by
  intro ts
  induction ts with
  | nil =>
    intro j _
    exact ⟨[], rfl, rfl, fun i hi => absurd hi (by simp)⟩
  | cons t ts ih =>
    intro j h
    obtain ⟨tm, hparse⟩ := Option.isSome_iff_exists.mp (h t (List.mem_cons_self t ts))
    obtain ⟨rest, hrest, hlen, hfields⟩ :=
      ih (j + 1) (fun u hu => h u (List.mem_cons_of_mem t hu))
    refine ⟨{ city := city, time := tm, readings := mkReadings hourly j } :: rest,
      by simp [buildRowsFrom, hparse, hrest], by simp [hlen], ?_⟩
    intro i hi
    match i with
    | 0 => exact ⟨by simpa using hparse, by simp, rfl⟩
    | Nat.succ k =>
      have hk : k < rest.length := by
        simpa using Nat.lt_of_succ_lt_succ hi
      obtain ⟨h1, h2, h3⟩ := hfields k hk
      refine ⟨by simpa using h1, ?_, by simpa using h3⟩
      have : j + 1 + k = j + (k + 1) := by omega
      simpa [this] using h2

/-- C6: on a snapshot whose timestamps all parse, the row-building loop
(`transform.py` lines 91-96) produces exactly one row per entry of the
time axis; the row at index `i` holds, for each tracked pollutant, the
reading at index `i` of that pollutant's array when `i` is within the
array and null otherwise (`mkReadings`/`readAt`), so an array shorter
than the time axis is null-padded past its end and a missing pollutant
key yields null in every row.  (The subsequent all-null-row filter of
line 102 is claim C7.) -/
theorem C6_one_row_per_time_entry (s : RawSnapshot)
    (h : ∀ t ∈ s.times, (parseTimestamp t).isSome) :
    ∃ rows, buildRows s = .ok rows ∧
      rows.length = s.times.length ∧
      (∀ i (hi : i < rows.length),
        parseTimestamp (s.times.getD i "") = some ((rows.get ⟨i, hi⟩).time) ∧
        (rows.get ⟨i, hi⟩).readings = mkReadings s.hourly i ∧
        (rows.get ⟨i, hi⟩).city = s.city) ∧
      (∀ i (hi : i < rows.length), (hget s.hourly "pm2_5").length ≤ i →
        (rows.get ⟨i, hi⟩).readings.pm2_5 = none) ∧
      (s.hourly.lookup "pm10" = none → ∀ i (hi : i < rows.length),
        (rows.get ⟨i, hi⟩).readings.pm10 = none) := by
  obtain ⟨rows, hok, hlen, hfields⟩ := buildRowsFrom_ok s.city s.hourly s.times 0 h
  have hfields0 : ∀ i (hi : i < rows.length),
      parseTimestamp (s.times.getD i "") = some ((rows.get ⟨i, hi⟩).time) ∧
      (rows.get ⟨i, hi⟩).readings = mkReadings s.hourly i ∧
      (rows.get ⟨i, hi⟩).city = s.city := by
    intro i hi
    have := hfields i hi
    simpa using this
  refine ⟨rows, hok, hlen, hfields0, ?_, ?_⟩
  · intro i hi hshort
    rw [(hfields0 i hi).2.1]
    simpa [mkReadings] using readAt_past_end _ i hshort
  · intro hmiss i hi
    rw [(hfields0 i hi).2.1]
    simp [mkReadings, hget_missing s.hourly "pm10" hmiss, readAt]

/-- C6, witness: a snapshot with a 3-entry time axis and a single
pollutant array (`pm2_5`) of length 2 yields exactly 3 rows, the third
row's `pm2_5` being null, and `pm10` (missing key) null in every row. -/
theorem C6_one_row_per_time_entry_witness :
    ∃ rows, buildRows { city := "Test City",
                        times := ["2024-01-01T00:00", "2024-01-01T01:00", "2024-01-01T02:00"],
                        hourly := [("pm2_5", [some 1, some 2])] } = .ok rows ∧
      rows.length = 3 ∧
      (∀ hi : 2 < rows.length, (rows.get ⟨2, hi⟩).readings.pm2_5 = none) ∧
      (∀ i (hi : i < rows.length), (rows.get ⟨i, hi⟩).readings.pm10 = none) := by
  obtain ⟨rows, hok, hlen, _, hpad, hmiss⟩ :=
    C6_one_row_per_time_entry
      { city := "Test City",
        times := ["2024-01-01T00:00", "2024-01-01T01:00", "2024-01-01T02:00"],
        hourly := [("pm2_5", [some 1, some 2])] }
      (by decide)
  refine ⟨rows, hok, hlen, fun hi => hpad 2 hi (by decide), hmiss (by decide)⟩

/-- The derived row keeps the raw row's readings unchanged. -/
theorem deriveRow_readings (r : RawRow) : (deriveRow r).readings = r.readings := rfl

/-- C7: the staged table produced by `transform` — the rows handed to
the Batch Committer — never contains a row whose seven pollutant fields
are all null: such a row is excluded by
`df.dropna(subset=POLLUTANTS, how="all")`, while every flattened row
with at least one non-null pollutant reading is retained (with its
derived features attached), and the derivation of an all-null row never
appears in the output. -/
theorem C7_all_null_rows_dropped (snaps : List RawSnapshot)
    (rows : List CanonicalRow) (raws : List RawRow)
    (hok : transform snaps = .ok rows) (hraw : flattenAll snaps = .ok raws) :
    (∀ r ∈ rows, allPollutantsNull r.readings = false) ∧
    (∀ r ∈ raws, allPollutantsNull r.readings = false → deriveRow r ∈ rows) ∧
    (∀ r ∈ raws, allPollutantsNull r.readings = true → deriveRow r ∉ rows) := by
  have hrows : rows = (raws.filter (fun r => !allPollutantsNull r.readings)).map deriveRow := by
    rw [transform, hraw] at hok
    exact ((Except.ok.injEq _ _).mp hok).symm
  subst hrows
  refine ⟨?_, ?_, ?_⟩
  · intro r hr
    obtain ⟨raw, hmem, hder⟩ := List.mem_map.mp hr
    have := List.of_mem_filter hmem
    rw [← hder, deriveRow_readings]
    simpa using this
  · intro r hmem hnn
    exact List.mem_map.mpr ⟨r, List.mem_filter.mpr ⟨hmem, by simp [hnn]⟩, rfl⟩
  · intro r _ hall hcontra
    obtain ⟨raw, hmemf, hder⟩ := List.mem_map.mp hcontra
    have hnn := List.of_mem_filter hmemf
    have : raw.readings = r.readings := by
      have := congrArg CanonicalRow.readings hder
      rwa [deriveRow_readings, deriveRow_readings] at this
    rw [this, hall] at hnn
    simp at hnn

/-- C7, witness: a snapshot building one partially-null row and one
all-null row; the committed table keeps exactly the former. -/
theorem C7_all_null_rows_dropped_witness :
    ∃ rows raws,
      transform [{ city := "Test City",
                   times := ["2024-01-01T00:00", "2024-01-01T01:00"],
                   hourly := [("pm2_5", [some 1])] }] = .ok rows ∧
      flattenAll [{ city := "Test City",
                    times := ["2024-01-01T00:00", "2024-01-01T01:00"],
                    hourly := [("pm2_5", [some 1])] }] = .ok raws ∧
      (∀ r ∈ rows, allPollutantsNull r.readings = false) ∧
      rows.length = 1 ∧ raws.length = 2 := by
  refine ⟨_, _, rfl, rfl, ?_, rfl, rfl⟩
  exact (C7_all_null_rows_dropped
    [{ city := "Test City",
       times := ["2024-01-01T00:00", "2024-01-01T01:00"],
       hourly := [("pm2_5", [some 1])] }] _ _ rfl rfl).1

/-- Evaluation of the batch-insert loop over exactly three batches of
which only the second exhausts its attempts. -/
theorem commitAll_three {α : Type} (records : List α) (batchSize maxRetries : Nat)
    (ok : Nat → Nat → Bool) (b1 b2 b3 : List α)
    (hc : chunkList batchSize records = [b1, b2, b3])
    (h1 : batchSucceeds maxRetries (ok 1) = true)
    (h2 : batchSucceeds maxRetries (ok 2) = false)
    (h3 : batchSucceeds maxRetries (ok 3) = true) :
    commitAll records batchSize maxRetries ok = (b1.length + b3.length, [2]) := by
  simp [commitAll, hc, List.enum, h1, h2, h3]

/-- C3: 450 rows with `batchSize = 200` are split into exactly the
3 consecutive slices of sizes 200, 200, 50 (their concatenation is the
original sequence, in order); with `maxRetries = 2`, if every one of the
`maxRetries + 1 = 3` attempts for batch 2 fails while batches 1 and 3
each succeed on some attempt, the run proceeds past batch 2, ends with
`total_inserted = 200 + 50 = 250`, and records exactly batch 2 as
failed. -/
theorem C3_batch_committer (ok : Nat → Nat → Bool)
    (hfail2 : ∀ a, a ≤ 2 → ok 2 a = false)
    (hok1 : ∃ a, a ≤ 2 ∧ ok 1 a = true)
    (hok3 : ∃ a, a ≤ 2 ∧ ok 3 a = true) :
    (chunkList 200 (List.range 450)).map List.length = [200, 200, 50] ∧
    (chunkList 200 (List.range 450)).flatten = List.range 450 ∧
    commitAll (List.range 450) 200 2 ok = (250, [2]) := by
  have step : ∀ xs : List Nat, xs ≠ [] →
      chunkList 200 xs = xs.take 200 :: chunkList 200 (xs.drop 200) := by
    intro xs hne
    cases xs with
    | nil => exact absurd rfl hne
    | cons x xs => simp [chunkList]
  have e0 := step (List.range 450) (List.ne_nil_of_length_pos (by simp))
  have e1 := step ((List.range 450).drop 200) (List.ne_nil_of_length_pos (by simp))
  have e2 := step (((List.range 450).drop 200).drop 200) (List.ne_nil_of_length_pos (by simp))
  have edone : ((((List.range 450).drop 200).drop 200).drop 200) = [] := by
    apply List.eq_nil_of_length_eq_zero
    simp
  have elast : (((List.range 450).drop 200).drop 200).take 200 =
      ((List.range 450).drop 200).drop 200 :=
    List.take_of_length_le (by simp)
  have hc : chunkList 200 (List.range 450) =
      [(List.range 450).take 200, ((List.range 450).drop 200).take 200,
        ((List.range 450).drop 200).drop 200] := by
    rw [e0, e1, e2, elast, edone]
    simp [chunkList]
  have hb1 : batchSucceeds 2 (ok 1) = true := by
    obtain ⟨a, ha, hoka⟩ := hok1
    simp only [batchSucceeds, List.any_eq_true, List.mem_range]
    exact ⟨a, by omega, hoka⟩
  have hb3 : batchSucceeds 2 (ok 3) = true := by
    obtain ⟨a, ha, hoka⟩ := hok3
    simp only [batchSucceeds, List.any_eq_true, List.mem_range]
    exact ⟨a, by omega, hoka⟩
  have hb2 : batchSucceeds 2 (ok 2) = false := by
    simp only [batchSucceeds, List.any_eq_false, List.mem_range]
    intro a ha
    simp [hfail2 a (by omega)]
  refine ⟨?_, ?_, ?_⟩
  · rw [hc]
    simp
  · rw [hc]
    simp only [List.flatten_cons, List.flatten_nil, List.append_nil]
    rw [List.take_append_drop, List.take_append_drop]
  · rw [commitAll_three (List.range 450) 200 2 ok _ _ _ hc hb1 hb2 hb3]
    simp

/-- C3, witness: the insert oracle that always fails batch 2 and always
succeeds elsewhere realizes the scenario. -/
theorem C3_batch_committer_witness :
    commitAll (List.range 450) 200 2 (fun b _ => b != 2) = (250, [2]) :=
  (C3_batch_committer (fun b _ => b != 2)
    (fun a _ => by simp)
    ⟨0, by norm_num⟩
    ⟨0, by norm_num⟩).2.2

/-- `ratFloor` agrees with the mathematical floor: the reduced
denominator is positive, so flooring division of the numerator by the
denominator is the floor of the fraction. -/
theorem ratFloor_eq_floor (q : ℚ) : ratFloor q = ⌊q⌋ := by
  rw [ratFloor, Rat.floor_def]
  exact Int.fdiv_eq_ediv _ (Int.natCast_nonneg q.den)

/-- `roundHalfEven` at a value whose fractional part is below one half
rounds down. -/
theorem roundHalfEven_eq_low (q : ℚ) (z : ℤ) (h1 : (z : ℚ) ≤ q) (h2 : q < z + 1)
    (hr : q - z < 1 / 2) : roundHalfEven q = z := by
  have hf : ratFloor q = z := by
    rw [ratFloor_eq_floor]
    exact Int.floor_eq_iff.mpr ⟨h1, h2⟩
  simp only [roundHalfEven, hf]
  rw [if_pos hr]

/-- `roundHalfEven` at a value whose fractional part is above one half
rounds up. -/
theorem roundHalfEven_eq_high (q : ℚ) (z : ℤ) (h1 : (z : ℚ) ≤ q) (h2 : q < z + 1)
    (hr : 1 / 2 < q - z) : roundHalfEven q = z + 1 := by
  have hf : ratFloor q = z := by
    rw [ratFloor_eq_floor]
    exact Int.floor_eq_iff.mpr ⟨h1, h2⟩
  simp only [roundHalfEven, hf]
  rw [if_neg (by linarith), if_pos hr]

/-- C8: the risk distribution divides the per-value count by the number
of rows with a non-null `risk_flag` — appending a row with a null flag
changes no percentage — and reports shares rounded to two decimal
places; on the three flags {High, High, Low} it reports High: 66.67 and
Low: 33.33. -/
theorem C8_risk_distribution (flags : List (Option String)) (v : String) :
    risk_pct (flags ++ [none]) v = risk_pct flags v ∧
    risk_pct [some "High Risk", some "High Risk", some "Low Risk"] "High Risk" = 6667 / 100 ∧
    risk_pct [some "High Risk", some "High Risk", some "Low Risk"] "Low Risk" = 3333 / 100 := by
  have hcH : countFlag [some "High Risk", some "High Risk", some "Low Risk"] "High Risk" = 2 := by
    decide
  have hcL : countFlag [some "High Risk", some "High Risk", some "Low Risk"] "Low Risk" = 1 := by
    decide
  have hnn3 : nonNullFlagCount [some "High Risk", some "High Risk", some "Low Risk"] = 3 := by
    decide
  refine ⟨?_, ?_, ?_⟩
  case refine_2 =>
    rw [risk_pct, hcH, hnn3, round2,
      roundHalfEven_eq_high _ 6666 (by norm_num) (by norm_num) (by norm_num)]
    norm_num
  case refine_3 =>
    rw [risk_pct, hcL, hnn3, round2,
      roundHalfEven_eq_low _ 3333 (by norm_num) (by norm_num) (by norm_num)]
    norm_num
  case refine_1 =>
    have hcount : countFlag (flags ++ [none]) v = countFlag flags v := by
      simp [countFlag, List.filter_append]
    have hnn : nonNullFlagCount (flags ++ [none]) = nonNullFlagCount flags := by
      simp [nonNullFlagCount, List.filter_append]
    rw [risk_pct, risk_pct, hcount, hnn]

/-- The rendering of a single decimal digit is a digit character. -/
theorem isDigit_digitChar (d : Nat) (hd : d < 10) : (digitChar d).isDigit = true := by
  interval_cases d <;> decide

/-- The zero-padded formatter always emits the `YYYY-MM-DDTHH:MM:SS`
shape the spec calls a canonical ISO-8601 string. -/
theorem spec_isIso8601_formatTimestampIso (t : Timestamp) :
    spec_isIso8601 (formatTimestampIso t) = true := by
  have hd : ∀ n : Nat, (digitChar (n % 10)).isDigit = true := by
    intro n
    exact isDigit_digitChar _ (Nat.mod_lt _ (by norm_num))
  simp only [formatTimestampIso, spec_isIso8601, pad4, pad2, String.mk, List.cons_append,
    List.nil_append]
  simp [hd]

/-- Serialization of one nullable numeric field never produces the NaN
sentinel nor any text sentinel, and it produces the explicit null
marker exactly on an absent value. -/
theorem transField_no_sentinel (x : Option ℚ) :
    (x = none ↔ transField x = .null) ∧
    transField x ≠ .nan ∧ ∀ s, transField x ≠ .text s := by
  cases x <;> simp [transField]

/-- C5: every transmitted record carries its timestamp as the
`strftime("%Y-%m-%dT%H:%M:%S")` rendering, which is an ISO-8601 string,
and every null field — pollutant readings, severity score and AQI
category — is carried as the explicit absent-value marker
`TransValue.null`, which is distinct from the empty-string and NaN
sentinels; a numeric field is never transmitted as NaN or as text. -/
theorem C5_record_serialization (r : CanonicalRow) :
    ((serializeRecord r).time = .text (formatTimestampIso r.time) ∧
      spec_isIso8601 (formatTimestampIso r.time) = true) ∧
    ((r.readings.pm10 = none ↔ (serializeRecord r).pm10 = .null) ∧
      (r.readings.pm2_5 = none ↔ (serializeRecord r).pm2_5 = .null) ∧
      (r.readings.carbon_monoxide = none ↔ (serializeRecord r).carbon_monoxide = .null) ∧
      (r.readings.nitrogen_dioxide = none ↔ (serializeRecord r).nitrogen_dioxide = .null) ∧
      (r.readings.sulphur_dioxide = none ↔ (serializeRecord r).sulphur_dioxide = .null) ∧
      (r.readings.ozone = none ↔ (serializeRecord r).ozone = .null) ∧
      (r.readings.uv_index = none ↔ (serializeRecord r).uv_index = .null) ∧
      (r.severity = none ↔ (serializeRecord r).severity_score = .null) ∧
      (r.AQI = none ↔ (serializeRecord r).aqi_category = .null)) ∧
    ((serializeRecord r).pm2_5 ≠ .nan ∧ ∀ s, (serializeRecord r).pm2_5 ≠ .text s) ∧
    (TransValue.null ≠ .text "" ∧ TransValue.null ≠ .nan) := by
  refine ⟨⟨rfl, spec_isIso8601_formatTimestampIso r.time⟩, ?_, ?_, by simp, by simp⟩
  · refine ⟨(transField_no_sentinel _).1, (transField_no_sentinel _).1,
      (transField_no_sentinel _).1, (transField_no_sentinel _).1,
      (transField_no_sentinel _).1, (transField_no_sentinel _).1,
      (transField_no_sentinel _).1, (transField_no_sentinel _).1, ?_⟩
    cases hA : r.AQI <;> simp [serializeRecord, transStrField, hA]
  · exact ⟨(transField_no_sentinel _).2.1, (transField_no_sentinel _).2.2⟩

/-- Reading back the rendering of a single decimal digit. -/
theorem digitVal_digitChar (d : Nat) (hd : d < 10) : digitVal (digitChar d) = some d := by
  interval_cases d <;> decide

theorem toList_mk (l : List Char) : (String.mk l).toList = l := rfl

/-- Two-digit round trip: parsing the zero-padded rendering of
`n < 100` recovers `n`. -/
theorem parse2_pad2 (n : Nat) (hn : n < 100) :
    parse2 (digitChar (n / 10 % 10)) (digitChar (n % 10)) = some n := by
  rw [parse2, digitVal_digitChar _ (Nat.mod_lt _ (by norm_num)),
    digitVal_digitChar _ (Nat.mod_lt _ (by norm_num))]
  show some (10 * (n / 10 % 10) + n % 10) = some n
  exact congrArg some (by omega)

/-- Four-digit round trip: parsing the zero-padded rendering of
`n < 10000` recovers `n`. -/
theorem parse4_pad4 (n : Nat) (hn : n < 10000) :
    parse4 (digitChar (n / 1000 % 10)) (digitChar (n / 100 % 10))
      (digitChar (n / 10 % 10)) (digitChar (n % 10)) = some n := by
  rw [parse4, digitVal_digitChar _ (Nat.mod_lt _ (by norm_num)),
    digitVal_digitChar _ (Nat.mod_lt _ (by norm_num)),
    digitVal_digitChar _ (Nat.mod_lt _ (by norm_num)),
    digitVal_digitChar _ (Nat.mod_lt _ (by norm_num))]
  show some (1000 * (n / 1000 % 10) + 100 * (n / 100 % 10) + 10 * (n / 10 % 10) + n % 10) =
    some n
  exact congrArg some (by omega)

/-- `pd.to_datetime` recovers the timestamp from its staged-CSV text. -/
theorem parseTimestamp_formatTimestampCsv (t : Timestamp) (hv : t.valid = true) :
    parseTimestamp (formatTimestampCsv t) = some t := by
  obtain ⟨y, mo, d, h, mi, s⟩ := t
  simp only [Timestamp.valid, decide_eq_true_eq] at hv
  obtain ⟨hy, hmo1, hmo2, hd1, hd2, hh, hmi, hs⟩ := hv
  simp only [formatTimestampCsv, pad4, pad2, List.cons_append, List.nil_append]
  simp only [parseTimestamp, toList_mk]
  rw [parse4_pad4 y (by omega), parse2_pad2 mo (by omega), parse2_pad2 d (by omega),
    parse2_pad2 h (by omega), parse2_pad2 mi (by omega), parse2_pad2 s (by omega)]
  simp only [mkTimestamp]
  rw [if_pos (by simp)]
  exact if_pos (by omega)

/-- A nullable float column survives the CSV round trip (empty ↔ NaN). -/
theorem optOfCell_cellOfOpt (x : Option ℚ) : optOfCell (cellOfOpt x) = x := by
  cases x <;> rfl

/-- A nullable string column survives the CSV round trip. -/
theorem optStrOfCell_cellOfOptStr (x : Option String) : optStrOfCell (cellOfOptStr x) = x := by
  cases x <;> rfl

/-- The integer `hour` column survives the CSV round trip. -/
theorem natOfCell_num (n : Nat) : natOfCell (.num (n : ℚ)) = some n := by
  simp [natOfCell, Rat.den_natCast, Rat.num_natCast]

/-- One staged row survives `to_csv` followed by `read_csv` /
`to_datetime` unchanged. -/
theorem readCsvRow_toCsvRow (r : CanonicalRow) (hv : r.time.valid = true) :
    readCsvRow (toCsvRow r) = some r := by
  simp only [toCsvRow, readCsvRow, natOfCell_num, parseTimestamp_formatTimestampCsv r.time hv,
    optOfCell_cellOfOpt, optStrOfCell_cellOfOptStr]

/-- C9: serializing a flattened table to the staged CSV schema and
re-parsing it as the Loader does yields, for every row, a row with
identical field values: same city, pollutant readings, AQI category,
severity score, risk flag and hour, and an equal timestamp (the
timestamp goes through its text rendering and back). -/
theorem C9_staged_csv_roundtrip (rows : List CanonicalRow)
    (hv : ∀ r ∈ rows, r.time.valid = true) :
    (rows.map toCsvRow).map readCsvRow = rows.map some := by
  rw [List.map_map]
  apply List.map_congr_left
  intro r hr
  exact readCsvRow_toCsvRow r (hv r hr)

/-- C9, witness: a concrete mixed row (with a null reading and a null
AQI) round trips through the staged CSV unchanged. -/
theorem C9_staged_csv_roundtrip_witness :
    List.map readCsvRow
      (([{ city := "Test City"
           time := ⟨2024, 1, 1, 5, 0, 0⟩
           readings := ⟨some 1, none, some 3, some 4, none, some 6, none⟩
           AQI := none
           severity := none
           risk := "Low Risk"
           hour := 5 }] : List CanonicalRow).map toCsvRow) =
      [some { city := "Test City"
              time := ⟨2024, 1, 1, 5, 0, 0⟩
              readings := ⟨some 1, none, some 3, some 4, none, some 6, none⟩
              AQI := none
              severity := none
              risk := "Low Risk"
              hour := 5 }] :=
  C9_staged_csv_roundtrip _ (by intro r hr; simp at hr; rw [hr]; decide)

end Etl
